import Mathlib

/-!
Verification of the WASAPI stream execution engine (`src/host/wasapi/stream.rs`).

The development shallowly embeds the stream engine: machine integers become
`Nat`/`Int` (with explicit wraparound where the source performs unchecked
32-bit arithmetic), native device calls become values drawn from an explicit
device environment (`DevEnv`), and the observable behaviour of the run loop
(callback invocations, buffer acquisitions and releases, native start/stop
calls) is recorded as a list of `Event`s.
-/

namespace Wasapi

/-- Modelled from the spec: the sample encoding chosen at stream-open time;
the type lives in the library root, outside the provided source. One of
32-bit float, signed 16-bit, unsigned 16-bit. -/
inductive SampleFormat
  | F32
  | I16
  | U16
deriving DecidableEq, Repr

/-- Modelled from the spec: the sample width in bytes of each encoding
(32-bit float occupies 4 bytes, the 16-bit encodings occupy 2). -/
def SampleFormat.sample_size : SampleFormat → Nat
  | .F32 => 4
  | .I16 => 2
  | .U16 => 2

/-- Commands processed by the run loop (`enum Command`). -/
inductive Command
  | PlayStream
  | PauseStream
  | Terminate
deriving DecidableEq, Repr

/-- Direction tag of the data-exchange interface (`enum AudioClientFlow`),
without the raw interface pointers. -/
inductive AudioClientFlow
  | Render
  | Capture
deriving DecidableEq, Repr

/-- The stream-error taxonomy relevant to this engine: `DeviceNotAvailable`
and `BackendSpecificError { description }` (the library-root `StreamError`
variants this file constructs). -/
inductive StreamError
  | DeviceNotAvailable
  | BackendSpecific (description : String)
deriving DecidableEq, Repr

/-- The state of `struct StreamInner` (raw pointers and the OS event handle
are dropped; the device behaviour they stand for is supplied by `DevEnv`). -/
structure StreamInner where
  client_flow : AudioClientFlow
  playing : Bool
  max_frames_in_buffer : Nat
  bytes_per_frame : Nat
  sample_format : SampleFormat
deriving DecidableEq, Repr

/-- Modelled from the spec: the engine receives an already-opened Device
Session and its `playing` flag is false at creation (session construction
lives in the device-negotiation module, outside the provided source). -/
def initialStreamInner (flow : AudioClientFlow) (maxFrames bpf : Nat)
    (fmt : SampleFormat) : StreamInner :=
  { client_flow := flow
    playing := false
    max_frames_in_buffer := maxFrames
    bytes_per_frame := bpf
    sample_format := fmt }

/-- The WASAPI status code `AUDCLNT_E_DEVICE_INVALIDATED` (0x88890004) as a
signed 32-bit value. -/
def AUDCLNT_E_DEVICE_INVALIDATED : Int := 0x88890004 - 0x100000000

/-- The WASAPI status code `AUDCLNT_S_BUFFER_EMPTY` (0x08890001), a success
code. -/
def AUDCLNT_S_BUFFER_EMPTY : Int := 0x08890001

/-- Modelled from the spec: `check_result` (defined in the wasapi module,
outside the provided source) returns `Ok(())` for success status codes and
an OS error carrying the code's human-readable form otherwise; for HRESULTs,
non-success means negative. The human-readable form is modelled as a
rendering of the raw code. -/
def check_result (hresult : Int) : Except String Unit :=
  if hresult < 0 then .error (toString hresult) else .ok ()

/-- Embedding of `stream_error_from_hresult`: the device-invalidated code maps
to `DeviceNotAvailable`, any other failing code maps to a backend-specific
error whose description is the code's rendering, success codes map to `Ok`. -/
def stream_error_from_hresult (hresult : Int) : Except StreamError Unit :=
  if hresult = AUDCLNT_E_DEVICE_INVALIDATED then
    .error .DeviceNotAvailable
  else
    match check_result hresult with
    | .error err => .error (.BackendSpecific err)
    | .ok _ => .ok ()

/-- The modulus of 32-bit unsigned arithmetic. -/
def U32_MOD : Nat := 2 ^ 32

/-- Embedding of `get_available_frames`: the device's `GetCurrentPadding`
result is supplied as an HRESULT `hr` together with the written padding
value. On success the source computes `max_frames_in_buffer - padding` as an
unchecked `u32` subtraction, which in release builds wraps modulo `2^32`. -/
def get_available_frames (stream : StreamInner) (hr : Int) (padding : Nat) :
    Except StreamError Nat :=
  match stream_error_from_hresult hr with
  | .error e => .error e
  | .ok _ => .ok ((stream.max_frames_in_buffer + U32_MOD - padding) % U32_MOD)

/-- The device-and-caller environment: results of every native call the run
loop can make, indexed by how many calls of that kind happened before, plus
the commands found queued at each drain of the command channel. -/
structure DevEnv where
  startHr : Nat → Int
  stopHr : Nat → Int
  paddingHr : Nat → Int
  paddingVal : Nat → Nat
  renderGetBufHr : Nat → Int
  renderReleaseHr : Nat → Int
  capPacketHr : Nat → Int
  capPacketFrames : Nat → Nat
  capGetBufHr : Nat → Int
  capGetBufFrames : Nat → Nat
  capReleaseHr : Nat → Int
  waitOk : Nat → Bool
  waitIdx : Nat → Nat
  waitErr : Nat → Nat
  cmds : Nat → List Command

/-- Per-kind counters of native calls and drains already performed, indexing
into `DevEnv`. -/
structure Counters where
  starts : Nat
  stops : Nat
  paddings : Nat
  renderGets : Nat
  renderReleases : Nat
  capPackets : Nat
  capGets : Nat
  capReleases : Nat
  waits : Nat
  drains : Nat
deriving DecidableEq, Repr

/-- The all-zero counter state at engine start. -/
def zeroCounters : Counters :=
  { starts := 0, stops := 0, paddings := 0, renderGets := 0
    renderReleases := 0, capPackets := 0, capGets := 0, capReleases := 0
    waits := 0, drains := 0 }

/-- Direction tag attached to the data delivered to the callback
(`StreamData::Input` / `StreamData::Output`). -/
inductive Direction
  | Input
  | Output
deriving DecidableEq, Repr

/-- Observable events of one engine run: native start/stop calls, buffer
acquisition and release (with the frame count passed to the native call),
data-callback invocations (with direction, encoding and element count of the
buffer view) and error-callback invocations. -/
inductive Event
  | startCall
  | stopCall
  | getBuffer (frames : Nat)
  | dataCallback (dir : Direction) (fmt : SampleFormat) (len : Nat)
  | releaseBuffer (frames : Nat)
  | errorCallback (e : StreamError)
deriving DecidableEq, Repr

/-- Result of processing the queued commands: the `Result<bool, StreamError>`
of `process_commands`, the updated stream state and counters, and the events
(native start/stop calls) emitted along the way. -/
structure DrainOut where
  result : Except StreamError Bool
  stream : StreamInner
  counters : Counters
  events : List Event
deriving Repr

/-- One step of the `for command in run_context.commands.try_iter()` body of
`process_commands`: Play while stopped issues a native start (whose HRESULT
the environment supplies) and sets `playing` only on success; Pause while
playing is symmetric; commands already in the target state do nothing;
Terminate returns `Ok(false)`. -/
def stepCommand (env : DevEnv) (c : Command) (st : StreamInner)
    (k : Counters) : DrainOut :=
  match c with
  | .PlayStream =>
    if st.playing then
      { result := .ok true, stream := st, counters := k, events := [] }
    else
      let hr := env.startHr k.starts
      let k1 := { k with starts := k.starts + 1 }
      match stream_error_from_hresult hr with
      | .error e =>
        { result := .error e, stream := st, counters := k1
          events := [.startCall] }
      | .ok _ =>
        { result := .ok true, stream := { st with playing := true }
          counters := k1, events := [.startCall] }
  | .PauseStream =>
    if st.playing then
      let hr := env.stopHr k.stops
      let k1 := { k with stops := k.stops + 1 }
      match stream_error_from_hresult hr with
      | .error e =>
        { result := .error e, stream := st, counters := k1
          events := [.stopCall] }
      | .ok _ =>
        { result := .ok true, stream := { st with playing := false }
          counters := k1, events := [.stopCall] }
    else
      { result := .ok true, stream := st, counters := k, events := [] }
  | .Terminate =>
    { result := .ok false, stream := st, counters := k, events := [] }

/-- Embedding of `process_commands` on the list of currently-queued commands:
commands are consumed in FIFO order; on the first `Err` or `Ok(false)`
(Terminate) the remaining commands are not processed. -/
def process_commands (env : DevEnv) (cmds : List Command) (st : StreamInner)
    (k : Counters) : DrainOut :=
  match cmds with
  | [] => { result := .ok true, stream := st, counters := k, events := [] }
  | c :: rest =>
    let d := stepCommand env c st k
    match d.result with
    | .ok true =>
      let d2 := process_commands env rest d.stream d.counters
      { result := d2.result, stream := d2.stream, counters := d2.counters
        events := d.events ++ d2.events }
    | _ => d

/-- Outcome of the capture inner loop: normal exit (pending packet size
reported zero), a fatal error delivered, or fuel exhaustion of the bounded
interpreter. -/
inductive CapOutcome
  | ok
  | errored
  | fuelOut
deriving DecidableEq, Repr

/-- Outcome of the render dispatch: normal completion (including the skipped
empty cycle) or a fatal error delivered. -/
inductive RenOutcome
  | ok
  | errored
deriving DecidableEq, Repr

/-- Result of a dispatch arm: emitted events, updated counters and outcome. -/
structure CaptureOut where
  events : List Event
  counters : Counters
  outcome : CapOutcome
deriving Repr

/-- Result of the render arm: emitted events, updated counters and outcome. -/
structure RenderOut where
  events : List Event
  counters : Counters
  outcome : RenOutcome
deriving Repr

/-- Embedding of the Capture arm of `run_inner`: loop on `GetNextPacketSize`
until it reports zero pending frames; otherwise `GetBuffer` (which overwrites
the frame count), retrying silently on `AUDCLNT_S_BUFFER_EMPTY`; on a
successful acquire, invoke the data callback on a view of
`frames * bytes_per_frame / sample_size` elements of the session's encoding,
then `ReleaseBuffer` those frames. Any failing HRESULT is delivered to the
error callback and breaks the stream loop. The interpreter is bounded by
`fuel` ticks. -/
def captureLoop (env : DevEnv) (st : StreamInner) :
    Nat → Counters → CaptureOut
  | 0, k => { events := [], counters := k, outcome := .fuelOut }
  | fuel + 1, k =>
    let hrP := env.capPacketHr k.capPackets
    let frames := env.capPacketFrames k.capPackets
    let k1 := { k with capPackets := k.capPackets + 1 }
    match stream_error_from_hresult hrP with
    | .error e =>
      { events := [.errorCallback e], counters := k1, outcome := .errored }
    | .ok _ =>
      if frames = 0 then
        { events := [], counters := k1, outcome := .ok }
      else
        let hrG := env.capGetBufHr k1.capGets
        let gframes := env.capGetBufFrames k1.capGets
        let k2 := { k1 with capGets := k1.capGets + 1 }
        if hrG = AUDCLNT_S_BUFFER_EMPTY then
          captureLoop env st fuel k2
        else
          match stream_error_from_hresult hrG with
          | .error e =>
            { events := [.errorCallback e], counters := k2
              outcome := .errored }
          | .ok _ =>
            let len :=
              gframes * st.bytes_per_frame / st.sample_format.sample_size
            let hrR := env.capReleaseHr k2.capReleases
            let k3 := { k2 with capReleases := k2.capReleases + 1 }
            let evs : List Event :=
              [.getBuffer gframes, .dataCallback .Input st.sample_format len,
               .releaseBuffer gframes]
            match stream_error_from_hresult hrR with
            | .error e =>
              { events := evs ++ [.errorCallback e], counters := k3
                outcome := .errored }
            | .ok _ =>
              let rest := captureLoop env st fuel k3
              { events := evs ++ rest.events, counters := rest.counters
                outcome := rest.outcome }

/-- Embedding of the Render arm of `run_inner`: compute the available frames
via `get_available_frames` (errors are fatal); zero available frames skips
the iteration entirely; otherwise `GetBuffer(frames)`, a data callback on a
view of `frames * bytes_per_frame / sample_size` elements of the session's
encoding, then `ReleaseBuffer(frames)`; any failing HRESULT is delivered to
the error callback and breaks the stream loop. -/
def renderDispatch (env : DevEnv) (st : StreamInner) (k : Counters) :
    RenderOut :=
  let hrP := env.paddingHr k.paddings
  let padding := env.paddingVal k.paddings
  let k1 := { k with paddings := k.paddings + 1 }
  match get_available_frames st hrP padding with
  | .error e =>
    { events := [.errorCallback e], counters := k1, outcome := .errored }
  | .ok 0 => { events := [], counters := k1, outcome := .ok }
  | .ok (n + 1) =>
    let hrG := env.renderGetBufHr k1.renderGets
    let k2 := { k1 with renderGets := k1.renderGets + 1 }
    match stream_error_from_hresult hrG with
    | .error e =>
      { events := [.getBuffer (n + 1), .errorCallback e], counters := k2
        outcome := .errored }
    | .ok _ =>
      let len := (n + 1) * st.bytes_per_frame / st.sample_format.sample_size
      let hrR := env.renderReleaseHr k2.renderReleases
      let k3 := { k2 with renderReleases := k2.renderReleases + 1 }
      match stream_error_from_hresult hrR with
      | .error e =>
        { events := [.getBuffer (n + 1),
                     .dataCallback .Output st.sample_format len,
                     .releaseBuffer (n + 1), .errorCallback e]
          counters := k3, outcome := .errored }
      | .ok _ =>
        { events := [.getBuffer (n + 1),
                     .dataCallback .Output st.sample_format len,
                     .releaseBuffer (n + 1)]
          counters := k3, outcome := .ok }

/-- How one run of `run_inner` ended: `finished` is the success path
(Terminate observed), `errored` the error-callback path, `fuelOut` fuel
exhaustion of the bounded interpreter. -/
inductive RunExit
  | finished
  | errored
  | fuelOut
deriving DecidableEq, Repr

/-- Result of a bounded run of `run_inner`. -/
structure RunOut where
  events : List Event
  stream : StreamInner
  counters : Counters
  exit : RunExit
deriving Repr

/-- Embedding of `run_inner`, bounded by `fuel` iterations: each iteration
first drains the command channel via `process_commands` (an error is
delivered to the error callback and breaks the loop; `Ok(false)` means
Terminate was seen and exits the success path), then blocks on
`WaitForMultipleObjectsEx` (a failed wait is delivered as a backend-specific
error and breaks the loop); index 0 is the command wake-up event and loops
back to draining, any other index dispatches to the capture or render arm. -/
def run_inner (env : DevEnv) : Nat → StreamInner → Counters → RunOut
  | 0, st, k =>
    { events := [], stream := st, counters := k, exit := .fuelOut }
  | fuel + 1, st, k =>
    let k0 := { k with drains := k.drains + 1 }
    let d := process_commands env (env.cmds k.drains) st k0
    match d.result with
    | .ok false =>
      { events := d.events, stream := d.stream, counters := d.counters
        exit := .finished }
    | .error e =>
      { events := d.events ++ [.errorCallback e], stream := d.stream
        counters := d.counters, exit := .errored }
    | .ok true =>
      let wOk := env.waitOk d.counters.waits
      let wIdx := env.waitIdx d.counters.waits
      let wErr := env.waitErr d.counters.waits
      let k2 := { d.counters with waits := d.counters.waits + 1 }
      if !wOk then
        { events := d.events ++
            [.errorCallback (.BackendSpecific
              ("`WaitForMultipleObjectsEx failed: " ++ toString wErr))]
          stream := d.stream, counters := k2, exit := .errored }
      else if wIdx = 0 then
        let rest := run_inner env fuel d.stream k2
        { events := d.events ++ rest.events, stream := rest.stream
          counters := rest.counters, exit := rest.exit }
      else
        match d.stream.client_flow with
        | .Capture =>
          let c := captureLoop env d.stream fuel k2
          match c.outcome with
          | .errored =>
            { events := d.events ++ c.events, stream := d.stream
              counters := c.counters, exit := .errored }
          | .fuelOut =>
            { events := d.events ++ c.events, stream := d.stream
              counters := c.counters, exit := .fuelOut }
          | .ok =>
            let rest := run_inner env fuel d.stream c.counters
            { events := d.events ++ c.events ++ rest.events
              stream := rest.stream, counters := rest.counters
              exit := rest.exit }
        | .Render =>
          let r := renderDispatch env d.stream k2
          match r.outcome with
          | .errored =>
            { events := d.events ++ r.events, stream := d.stream
              counters := r.counters, exit := .errored }
          | .ok =>
            let rest := run_inner env fuel d.stream r.counters
            { events := d.events ++ r.events ++ rest.events
              stream := rest.stream, counters := rest.counters
              exit := rest.exit }

/-- Modelled from the spec: the error type of `play()` in the library root;
only the fact that `play` never constructs one matters here. -/
inductive PlayStreamError
  | DeviceNotAvailable
  | BackendSpecific (description : String)
deriving DecidableEq, Repr

/-- Modelled from the spec: the error type of `pause()` in the library root;
only the fact that `pause` never constructs one matters here. -/
inductive PauseStreamError
  | DeviceNotAvailable
  | BackendSpecific (description : String)
deriving DecidableEq, Repr

/-- The caller-visible state of `struct Stream`: the FIFO of commands sent
into the channel and whether `pending_scheduled_event` is signalled. -/
structure StreamHandle where
  queue : List Command
  eventSignalled : Bool
deriving DecidableEq, Repr

/-- Embedding of `Stream::push_command`: send the command into the channel
and signal `pending_scheduled_event`. -/
def push_command (s : StreamHandle) (c : Command) : StreamHandle :=
  { queue := s.queue ++ [c], eventSignalled := true }

/-- Embedding of `StreamTrait::play` for `Stream`: push `PlayStream`, signal
the wake-up event, return `Ok(())`. -/
def play (s : StreamHandle) : StreamHandle × Except PlayStreamError Unit :=
  (push_command s .PlayStream, .ok ())

/-- Embedding of `StreamTrait::pause` for `Stream`: push `PauseStream`,
signal the wake-up event, return `Ok(())`. -/
def pause (s : StreamHandle) : StreamHandle × Except PauseStreamError Unit :=
  (push_command s .PauseStream, .ok ())

/-- An error-callback invocation event. -/
def isErrorEvent : Event → Bool
  | .errorCallback _ => true
  | _ => false

/-- A data-callback invocation event. -/
def isDataEvent : Event → Bool
  | .dataCallback _ _ _ => true
  | _ => false

/-- A native start/stop control call (the only events command draining can
emit). -/
def isControlEvent : Event → Bool
  | .startCall => true
  | .stopCall => true
  | _ => false

/-- A trace with no error-callback invocation. -/
def errorFree (tr : List Event) : Bool :=
  tr.all fun ev => !isErrorEvent ev

/-- The net effect of one command on the `playing` flag, for comparing the
drain against a plain FIFO fold. -/
def applyCommandBool (b : Bool) : Command → Bool
  | .PlayStream => true
  | .PauseStream => false
  | .Terminate => b

/-- How many native start calls a Terminate-free command sequence issues from
a given `playing` state: one per Play command that finds the stream
stopped. -/
def countStartCalls : Bool → List Command → Nat
  | b, .PlayStream :: rest => (if b then 0 else 1) + countStartCalls true rest
  | _, .PauseStream :: rest => countStartCalls false rest
  | b, .Terminate :: rest => countStartCalls b rest
  | _, [] => 0

/-- How many native stop calls a Terminate-free command sequence issues from
a given `playing` state: one per Pause command that finds the stream
playing. -/
def countStopCalls : Bool → List Command → Nat
  | _, .PlayStream :: rest => countStopCalls true rest
  | b, .PauseStream :: rest => (if b then 1 else 0) + countStopCalls false rest
  | b, .Terminate :: rest => countStopCalls b rest
  | _, [] => 0

/-- A benign device environment for concrete runs: every native call
succeeds (HRESULT 0), padding is zero, capture reports no pending packets,
waits succeed reporting the device-readiness handle, and no commands are
queued. -/
def okEnv : DevEnv :=
  { startHr := fun _ => 0
    stopHr := fun _ => 0
    paddingHr := fun _ => 0
    paddingVal := fun _ => 0
    renderGetBufHr := fun _ => 0
    renderReleaseHr := fun _ => 0
    capPacketHr := fun _ => 0
    capPacketFrames := fun _ => 0
    capGetBufHr := fun _ => 0
    capGetBufFrames := fun _ => 1
    capReleaseHr := fun _ => 0
    waitOk := fun _ => true
    waitIdx := fun _ => 1
    waitErr := fun _ => 0
    cmds := fun _ => [] }

/-- A freshly created render session: 4-frame buffer, 8 bytes per frame,
32-bit float samples. -/
def stR : StreamInner := initialStreamInner .Render 4 8 .F32

/-- A freshly created capture session with the same geometry. -/
def stC : StreamInner := initialStreamInner .Capture 4 8 .F32

/-- A capture environment reporting one pending frame whose acquire keeps
answering the transient buffer-empty status. -/
def emptyBufEnv : DevEnv :=
  { okEnv with
    capPacketFrames := fun _ => 1
    capGetBufHr := fun _ => AUDCLNT_S_BUFFER_EMPTY }

/-- A capture environment reporting one pending frame per packet query, with
every native call succeeding. -/
def onePacketEnv : DevEnv :=
  { okEnv with capPacketFrames := fun _ => 1 }

/-- A render environment whose padding always equals the buffer capacity, so
no frames are ever available. -/
def fullPaddingEnv : DevEnv :=
  { okEnv with paddingVal := fun _ => 4 }

/-- An environment whose first drain finds a Play command and whose native
start call fails with HRESULT -1. -/
def failStartEnv : DevEnv :=
  { okEnv with
    startHr := fun _ => -1
    cmds := fun _ => [Command.PlayStream] }

/-- An environment whose first drain finds Play followed by Terminate, with
every native call succeeding. -/
def playTermEnv : DevEnv :=
  { okEnv with cmds := fun _ => [Command.PlayStream, Command.Terminate] }

/-! ## Basic facts about the error translator and frame accounting -/

theorem AUDCLNT_E_DEVICE_INVALIDATED_neg : AUDCLNT_E_DEVICE_INVALIDATED < 0 := by
  decide

theorem hresult_ok_of_nonneg (h : Int) (h0 : 0 ≤ h) :
    stream_error_from_hresult h = .ok () := by
  have hne : h ≠ AUDCLNT_E_DEVICE_INVALIDATED := by
    intro heq
    rw [heq] at h0
    exact absurd h0 (by decide)
  unfold stream_error_from_hresult check_result
  rw [if_neg hne, if_neg (not_lt.mpr h0)]

theorem hresult_nonneg_of_ok (h : Int)
    (hok : stream_error_from_hresult h = .ok ()) : 0 ≤ h := by
  by_contra hneg
  push_neg at hneg
  unfold stream_error_from_hresult check_result at hok
  by_cases hne : h = AUDCLNT_E_DEVICE_INVALIDATED
  · rw [if_pos hne] at hok
    exact Except.noConfusion hok
  · rw [if_neg hne, if_pos hneg] at hok
    exact Except.noConfusion hok

theorem gaf_of_le (st : StreamInner) (hr : Int) (padding : Nat)
    (hok : stream_error_from_hresult hr = .ok ())
    (hle : padding ≤ st.max_frames_in_buffer)
    (hmax : st.max_frames_in_buffer < U32_MOD) :
    get_available_frames st hr padding =
      .ok (st.max_frames_in_buffer - padding) := by
  simp only [get_available_frames, hok]
  have h1 : st.max_frames_in_buffer + U32_MOD - padding =
      (st.max_frames_in_buffer - padding) + U32_MOD := by omega
  rw [h1, Nat.add_mod_right, Nat.mod_eq_of_lt (by omega)]

theorem gaf_underflow (st : StreamInner) (hr : Int) (padding : Nat)
    (hok : stream_error_from_hresult hr = .ok ())
    (hlt : st.max_frames_in_buffer < padding)
    (hpad : padding < U32_MOD) :
    get_available_frames st hr padding =
      .ok (st.max_frames_in_buffer + U32_MOD - padding) := by
  simp only [get_available_frames, hok]
  rw [Nat.mod_eq_of_lt (by omega)]

/-! ## C4: the error translator -/

/-- C4: `stream_error_from_hresult` is a pure function of the status code
returning `Ok(())` on every success (non-negative) code,
`DeviceNotAvailable` exactly on the device-invalidated code,
`BackendSpecificError` with a description built from the code's rendering on
every other non-success code, and nothing else. -/
theorem stream_error_translator_total (h : Int) :
    (0 ≤ h → stream_error_from_hresult h = .ok ()) ∧
    (h = AUDCLNT_E_DEVICE_INVALIDATED →
      stream_error_from_hresult h = .error .DeviceNotAvailable) ∧
    (h < 0 → h ≠ AUDCLNT_E_DEVICE_INVALIDATED →
      stream_error_from_hresult h = .error (.BackendSpecific (toString h))) ∧
    (stream_error_from_hresult h = .ok () ∨
      stream_error_from_hresult h = .error .DeviceNotAvailable ∨
      stream_error_from_hresult h = .error (.BackendSpecific (toString h))) := by
  refine ⟨hresult_ok_of_nonneg h, fun heq => ?_, fun hneg hne => ?_, ?_⟩
  · unfold stream_error_from_hresult
    rw [if_pos heq]
  · unfold stream_error_from_hresult check_result
    rw [if_neg hne, if_pos hneg]
  · rcases lt_or_le h 0 with hneg | hnn
    · by_cases hne : h = AUDCLNT_E_DEVICE_INVALIDATED
      · refine Or.inr (Or.inl ?_)
        unfold stream_error_from_hresult
        rw [if_pos hne]
      · refine Or.inr (Or.inr ?_)
        unfold stream_error_from_hresult check_result
        rw [if_neg hne, if_pos hneg]
    · exact Or.inl (hresult_ok_of_nonneg h hnn)

/-- Witness for C4 at the three representative codes 0 (success),
the device-invalidated code, and -1 (other failure). -/
theorem stream_error_translator_total_witness :
    stream_error_from_hresult 0 = .ok () ∧
    stream_error_from_hresult AUDCLNT_E_DEVICE_INVALIDATED =
      .error .DeviceNotAvailable ∧
    stream_error_from_hresult (-1) =
      .error (.BackendSpecific (toString (-1 : Int))) :=
  ⟨(stream_error_translator_total 0).1 (by decide),
   (stream_error_translator_total AUDCLNT_E_DEVICE_INVALIDATED).2.1 rfl,
   (stream_error_translator_total (-1)).2.2.1 (by decide) (by decide)⟩

/-! ## C10: unchecked u32 subtraction in `get_available_frames` -/

/-- C10: `get_available_frames` performs `max_frames_in_buffer - padding` as
an unchecked 32-bit unsigned subtraction: for `padding ≤ max` it returns
`Ok(max - padding)`, while a padding exceeding `max` is not reported as an
error — the result is still `Ok`, with the wrapped (underflowed) value,
which even exceeds the buffer capacity. -/
theorem get_available_frames_unchecked_sub (st : StreamInner) (hr : Int)
    (padding : Nat)
    (hok : stream_error_from_hresult hr = .ok ())
    (hmax : st.max_frames_in_buffer < U32_MOD)
    (hpad : padding < U32_MOD) :
    (padding ≤ st.max_frames_in_buffer →
      get_available_frames st hr padding =
        .ok (st.max_frames_in_buffer - padding)) ∧
    (st.max_frames_in_buffer < padding →
      get_available_frames st hr padding =
        .ok (st.max_frames_in_buffer + U32_MOD - padding) ∧
      st.max_frames_in_buffer <
        st.max_frames_in_buffer + U32_MOD - padding) :=
  ⟨fun hle => gaf_of_le st hr padding hok hle hmax,
   fun hlt => ⟨gaf_underflow st hr padding hok hlt hpad, by omega⟩⟩

/-- Witness for C10: with a 4-frame buffer, padding 1 yields `Ok 3`;
padding 5 (greater than the buffer) yields `Ok (2^32 - 1)` — an underflowed
value, not an error. -/
theorem get_available_frames_unchecked_sub_witness :
    get_available_frames stR 0 1 = .ok 3 ∧
    get_available_frames stR 0 5 = .ok (4 + U32_MOD - 5) ∧
    (4 : Nat) < 4 + U32_MOD - 5 :=
  ⟨(get_available_frames_unchecked_sub stR 0 1 (hresult_ok_of_nonneg 0 le_rfl)
      (by decide) (by decide)).1 (by decide),
   ((get_available_frames_unchecked_sub stR 0 5 (hresult_ok_of_nonneg 0 le_rfl)
      (by decide) (by decide)).2 (by decide)).1,
   ((get_available_frames_unchecked_sub stR 0 5 (hresult_ok_of_nonneg 0 le_rfl)
      (by decide) (by decide)).2 (by decide)).2⟩

/-! ## C9: `play` and `pause` never fail -/

/-- C9: for every handle state, `play()` and `pause()` enqueue their command
at the tail of the FIFO, signal the wake-up event, and return `Ok(())` —
they never return an error value. -/
theorem play_pause_always_ok (s : StreamHandle) :
    (play s).2 = .ok () ∧ (pause s).2 = .ok () ∧
    (play s).1 = { queue := s.queue ++ [Command.PlayStream]
                   eventSignalled := true } ∧
    (pause s).1 = { queue := s.queue ++ [Command.PauseStream]
                    eventSignalled := true } :=
  ⟨rfl, rfl, rfl, rfl⟩

/-! ## C7: the render empty cycle -/

/-- C7: in the render dispatch the available frame count is computed as
`max_frames_in_buffer` minus the device-reported padding, and when it is
zero the iteration is skipped: no buffer acquired, no data callback, no
error delivered — only the padding query counter advances. -/
theorem render_zero_available_skips (env : DevEnv) (st : StreamInner)
    (k : Counters)
    (hok : stream_error_from_hresult (env.paddingHr k.paddings) = .ok ())
    (hmax : st.max_frames_in_buffer < U32_MOD) :
    (env.paddingVal k.paddings ≤ st.max_frames_in_buffer →
      get_available_frames st (env.paddingHr k.paddings)
          (env.paddingVal k.paddings) =
        .ok (st.max_frames_in_buffer - env.paddingVal k.paddings)) ∧
    (env.paddingVal k.paddings = st.max_frames_in_buffer →
      renderDispatch env st k =
        { events := [], counters := { k with paddings := k.paddings + 1 }
          outcome := .ok }) := by
  constructor
  · intro hle
    exact gaf_of_le st _ _ hok hle hmax
  · intro heq
    have h0 : get_available_frames st (env.paddingHr k.paddings)
        (env.paddingVal k.paddings) = .ok 0 := by
      rw [gaf_of_le st _ _ hok (le_of_eq heq) hmax, heq, Nat.sub_self]
    simp only [renderDispatch, h0]

/-- Witness for C7: padding equal to the 4-frame buffer capacity makes the
render arm skip the iteration with an empty trace. -/
theorem render_zero_available_skips_witness :
    renderDispatch fullPaddingEnv stR zeroCounters =
      { events := [], counters := { zeroCounters with paddings := 1 }
        outcome := .ok } :=
  (render_zero_available_skips fullPaddingEnv stR zeroCounters
      (hresult_ok_of_nonneg 0 le_rfl) (by decide)).2 rfl

/-! ## C1: render conservation -/

/-- C1: when a render buffer of `N` available frames is successfully
acquired, the data callback runs exactly once on a view of the session's
fixed encoding with `N * bytes_per_frame / sample_size` elements, and
`ReleaseBuffer` is then passed exactly `N` — the same count passed to
`GetBuffer`; at most an error-callback event can follow (a failed release),
never further data. -/
theorem render_conservation (env : DevEnv) (st : StreamInner) (k : Counters)
    (N : Nat)
    (hok : stream_error_from_hresult (env.paddingHr k.paddings) = .ok ())
    (hmax : st.max_frames_in_buffer < U32_MOD)
    (hle : env.paddingVal k.paddings ≤ st.max_frames_in_buffer)
    (hN : st.max_frames_in_buffer - env.paddingVal k.paddings = N)
    (hpos : 0 < N)
    (hG : stream_error_from_hresult (env.renderGetBufHr k.renderGets) =
      .ok ()) :
    ∃ tail,
      (renderDispatch env st k).events =
        [Event.getBuffer N,
         Event.dataCallback .Output st.sample_format
           (N * st.bytes_per_frame / st.sample_format.sample_size),
         Event.releaseBuffer N] ++ tail ∧
      (tail = [] ∨ ∃ e, tail = [Event.errorCallback e]) := by
  obtain ⟨n, rfl⟩ : ∃ n, N = n + 1 := ⟨N - 1, by omega⟩
  have h0 : get_available_frames st (env.paddingHr k.paddings)
      (env.paddingVal k.paddings) = .ok (n + 1) := by
    rw [gaf_of_le st _ _ hok hle hmax, hN]
  cases hR : stream_error_from_hresult (env.renderReleaseHr k.renderReleases)
    with
  | error e =>
    refine ⟨[Event.errorCallback e], ?_, Or.inr ⟨e, rfl⟩⟩
    simp only [renderDispatch, h0, hG, hR, List.cons_append,
      List.nil_append]
  | ok u =>
    cases u
    refine ⟨[], ?_, Or.inl rfl⟩
    simp only [renderDispatch, h0, hG, hR, List.append_nil]

/-- Witness for C1: zero padding on the 4-frame render session delivers one
output callback of 8 float samples (4 frames times 8 bytes per frame over
4-byte samples) and releases exactly 4 frames. -/
theorem render_conservation_witness :
    ∃ tail,
      (renderDispatch okEnv stR zeroCounters).events =
        [Event.getBuffer 4,
         Event.dataCallback .Output stR.sample_format
           (4 * stR.bytes_per_frame / stR.sample_format.sample_size),
         Event.releaseBuffer 4] ++ tail ∧
      (tail = [] ∨ ∃ e, tail = [Event.errorCallback e]) :=
  render_conservation okEnv stR zeroCounters 4
    (hresult_ok_of_nonneg 0 le_rfl) (by decide) (by decide) (by decide)
    (by decide) (hresult_ok_of_nonneg 0 le_rfl)

/-! ## C2: the capture inner loop -/

/-- C2: on a capture dispatch the inner loop exits back to command draining
exactly when the pending packet size reports zero (with no callback and no
error); a transient `AUDCLNT_S_BUFFER_EMPTY` from `GetBuffer` retries the
acquire cycle without invoking the data callback and without surfacing an
error; and a successful acquire runs one
acquire/callback/release cycle and continues the loop. -/
theorem capture_inner_loop (env : DevEnv) (st : StreamInner) (fuel : Nat)
    (k : Counters)
    (hP : stream_error_from_hresult (env.capPacketHr k.capPackets) =
      .ok ()) :
    (env.capPacketFrames k.capPackets = 0 →
      captureLoop env st (fuel + 1) k =
        { events := []
          counters := { k with capPackets := k.capPackets + 1 }
          outcome := .ok }) ∧
    (∀ m, env.capPacketFrames k.capPackets = m + 1 →
      (env.capGetBufHr k.capGets = AUDCLNT_S_BUFFER_EMPTY →
        captureLoop env st (fuel + 1) k =
          captureLoop env st fuel
            { k with capPackets := k.capPackets + 1
                     capGets := k.capGets + 1 }) ∧
      (env.capGetBufHr k.capGets ≠ AUDCLNT_S_BUFFER_EMPTY →
        stream_error_from_hresult (env.capGetBufHr k.capGets) = .ok () →
        stream_error_from_hresult (env.capReleaseHr k.capReleases) =
          .ok () →
        (captureLoop env st (fuel + 1) k).events =
          [Event.getBuffer (env.capGetBufFrames k.capGets),
           Event.dataCallback .Input st.sample_format
             (env.capGetBufFrames k.capGets * st.bytes_per_frame /
               st.sample_format.sample_size),
           Event.releaseBuffer (env.capGetBufFrames k.capGets)] ++
          (captureLoop env st fuel
            { k with capPackets := k.capPackets + 1
                     capGets := k.capGets + 1
                     capReleases := k.capReleases + 1 }).events)) := by
  constructor
  · intro hF
    simp only [captureLoop, hP, hF, if_pos]
  · intro m hF
    constructor
    · intro hEmpty
      simp only [captureLoop, hP, hF, Nat.succ_ne_zero, if_neg, if_pos,
        hEmpty, reduceIte]
    · intro hne hG hR
      simp only [captureLoop, hP, hF, Nat.succ_ne_zero, if_neg, hne,
        reduceIte, hG, hR]

/-- Witness for C2 at three concrete device environments: no pending packet
exits immediately; a buffer-empty acquire retries silently; a successful
1-frame packet performs one full cycle. -/
theorem capture_inner_loop_witness :
    (captureLoop okEnv stC 1 zeroCounters =
      { events := [], counters := { zeroCounters with capPackets := 1 }
        outcome := .ok }) ∧
    (captureLoop emptyBufEnv stC 1 zeroCounters =
      captureLoop emptyBufEnv stC 0
        { zeroCounters with capPackets := 1, capGets := 1 }) ∧
    ((captureLoop onePacketEnv stC 1 zeroCounters).events =
      [Event.getBuffer 1,
       Event.dataCallback .Input stC.sample_format
         (1 * stC.bytes_per_frame / stC.sample_format.sample_size),
       Event.releaseBuffer 1] ++
      (captureLoop onePacketEnv stC 0
        { zeroCounters with capPackets := 1, capGets := 1, capReleases := 1 }).events) :=
  ⟨(capture_inner_loop okEnv stC 0 zeroCounters
      (hresult_ok_of_nonneg 0 le_rfl)).1 rfl,
   ((capture_inner_loop emptyBufEnv stC 0 zeroCounters
      (hresult_ok_of_nonneg 0 le_rfl)).2 0 rfl).1 rfl,
   ((capture_inner_loop onePacketEnv stC 0 zeroCounters
      (hresult_ok_of_nonneg 0 le_rfl)).2 0 rfl).2 (by decide)
      (hresult_ok_of_nonneg 0 le_rfl) (hresult_ok_of_nonneg 0 le_rfl)⟩

/-! ## C3: command draining is a FIFO fold with idempotent repeats -/

/-- C3: when every native start/stop call succeeds and no Terminate is
queued, draining returns `Ok(true)`, the resulting `playing` state is the
FIFO left-fold of the commands over the starting state, and the numbers of
native start and stop calls are exactly the state-changing Play and Pause
commands (commands already in their target state issue no native call, so
Play,Play issues exactly one start). -/
theorem process_commands_fifo_fold (env : DevEnv) (cmds : List Command)
    (st : StreamInner) (k : Counters)
    (hstart : ∀ j, stream_error_from_hresult (env.startHr j) = .ok ())
    (hstop : ∀ j, stream_error_from_hresult (env.stopHr j) = .ok ())
    (hterm : Command.Terminate ∉ cmds) :
    (process_commands env cmds st k).result = .ok true ∧
    (process_commands env cmds st k).stream.playing =
      cmds.foldl applyCommandBool st.playing ∧
    (process_commands env cmds st k).counters.starts =
      k.starts + countStartCalls st.playing cmds ∧
    (process_commands env cmds st k).counters.stops =
      k.stops + countStopCalls st.playing cmds := by
  induction cmds generalizing st k with
  | nil =>
    simp [process_commands, countStartCalls, countStopCalls]
  | cons c rest ih =>
    have hterm' : Command.Terminate ∉ rest := by
      intro h
      exact hterm (List.mem_cons_of_mem c h)
    cases c with
    | PlayStream =>
      cases hp : st.playing with
      | true =>
        obtain ⟨h1, h2, h3, h4⟩ := ih st k hterm'
        rw [hp] at h2 h3 h4
        refine ⟨?_, ?_, ?_, ?_⟩ <;>
          simp [process_commands, stepCommand, hp, List.foldl,
            applyCommandBool, countStartCalls, countStopCalls, h1, h2, h3, h4]
      | false =>
        obtain ⟨h1, h2, h3, h4⟩ :=
          ih { st with playing := true } { k with starts := k.starts + 1 }
            hterm'
        refine ⟨?_, ?_, ?_, ?_⟩ <;>
          simp [process_commands, stepCommand, hp, hstart, List.foldl,
            applyCommandBool, countStartCalls, countStopCalls, h1, h2, h3,
            h4] <;>
          omega
    | PauseStream =>
      cases hp : st.playing with
      | false =>
        obtain ⟨h1, h2, h3, h4⟩ := ih st k hterm'
        rw [hp] at h2 h3 h4
        refine ⟨?_, ?_, ?_, ?_⟩ <;>
          simp [process_commands, stepCommand, hp, List.foldl,
            applyCommandBool, countStartCalls, countStopCalls, h1, h2, h3, h4]
      | true =>
        obtain ⟨h1, h2, h3, h4⟩ :=
          ih { st with playing := false } { k with stops := k.stops + 1 }
            hterm'
        refine ⟨?_, ?_, ?_, ?_⟩ <;>
          simp [process_commands, stepCommand, hp, hstop, List.foldl,
            applyCommandBool, countStartCalls, countStopCalls, h1, h2, h3,
            h4] <;>
          omega
    | Terminate => exact absurd (List.mem_cons_self Command.Terminate rest) hterm

/-- Witness for C3: draining Play,Play from the stopped state succeeds,
ends playing, and issues exactly one native start call and no stop call. -/
theorem process_commands_fifo_fold_witness :
    (process_commands okEnv [Command.PlayStream, Command.PlayStream] stR
      zeroCounters).result = .ok true ∧
    (process_commands okEnv [Command.PlayStream, Command.PlayStream] stR
      zeroCounters).stream.playing = true ∧
    (process_commands okEnv [Command.PlayStream, Command.PlayStream] stR
      zeroCounters).counters.starts = 1 ∧
    (process_commands okEnv [Command.PlayStream, Command.PlayStream] stR
      zeroCounters).counters.stops = 0 :=
  process_commands_fifo_fold okEnv [Command.PlayStream, Command.PlayStream]
    stR zeroCounters (fun _ => hresult_ok_of_nonneg 0 le_rfl)
    (fun _ => hresult_ok_of_nonneg 0 le_rfl) (by decide)

/-! ## C8: the `playing` flag transitions only through successful
start/stop calls -/

/-- C8: the session starts with `playing = false`; a single command step
raises the flag only when a Play command's native start call succeeded and
lowers it only when a Pause command's native stop call succeeded; when the
step reports an error the stream state is unchanged; and a drain that
reports an error makes the run loop deliver it and terminate with the
errored exit. -/
theorem playing_flag_invariant :
    (∀ flow maxFrames bpf fmt,
      (initialStreamInner flow maxFrames bpf fmt).playing = false) ∧
    (∀ env c st k,
      ((stepCommand env c st k).stream.playing = true →
        st.playing = false →
        c = Command.PlayStream ∧
        stream_error_from_hresult (env.startHr k.starts) = .ok ()) ∧
      ((stepCommand env c st k).stream.playing = false →
        st.playing = true →
        c = Command.PauseStream ∧
        stream_error_from_hresult (env.stopHr k.stops) = .ok ()) ∧
      (∀ e, (stepCommand env c st k).result = .error e →
        (stepCommand env c st k).stream = st)) ∧
    (∀ env fuel st k e,
      (process_commands env (env.cmds k.drains) st
        { k with drains := k.drains + 1 }).result = .error e →
      (run_inner env (fuel + 1) st k).exit = .errored ∧
      (run_inner env (fuel + 1) st k).events =
        (process_commands env (env.cmds k.drains) st
          { k with drains := k.drains + 1 }).events ++
          [Event.errorCallback e]) := by
  refine ⟨fun _ _ _ _ => rfl, fun env c st k => ?_, fun env fuel st k e he => ?_⟩
  · cases c with
    | PlayStream =>
      cases hp : st.playing with
      | true =>
        refine ⟨?_, ?_, ?_⟩ <;>
          simp [stepCommand, hp]
      | false =>
        cases hs : stream_error_from_hresult (env.startHr k.starts) with
        | error e =>
          refine ⟨?_, ?_, ?_⟩ <;>
            simp [stepCommand, hp, hs]
        | ok u =>
          cases u
          refine ⟨?_, ?_, ?_⟩ <;>
            simp [stepCommand, hp, hs]
    | PauseStream =>
      cases hp : st.playing with
      | false =>
        refine ⟨?_, ?_, ?_⟩ <;>
          simp [stepCommand, hp]
      | true =>
        cases hs : stream_error_from_hresult (env.stopHr k.stops) with
        | error e =>
          refine ⟨?_, ?_, ?_⟩ <;>
            simp [stepCommand, hp, hs]
        | ok u =>
          cases u
          refine ⟨?_, ?_, ?_⟩ <;>
            simp [stepCommand, hp, hs]
    | Terminate =>
      refine ⟨?_, ?_, ?_⟩ <;>
        simp [stepCommand]
  · constructor <;>
      simp [run_inner, he]

/-- Witness for C8: a successful start raises the flag of the fresh render
session, and a failed start (HRESULT -1 on the first drain of a Play)
terminates the run loop with the error delivered. -/
theorem playing_flag_invariant_witness :
    ((initialStreamInner .Render 4 8 .F32).playing = false) ∧
    (Command.PlayStream = Command.PlayStream ∧
      stream_error_from_hresult (okEnv.startHr zeroCounters.starts) =
        .ok ()) ∧
    ((run_inner failStartEnv 1 stR zeroCounters).exit = .errored ∧
      (run_inner failStartEnv 1 stR zeroCounters).events =
        (process_commands failStartEnv (failStartEnv.cmds zeroCounters.drains)
          stR { zeroCounters with drains := 1 }).events ++
          [Event.errorCallback (.BackendSpecific (toString (-1 : Int)))]) :=
  ⟨playing_flag_invariant.1 .Render 4 8 .F32,
   (playing_flag_invariant.2.1 okEnv Command.PlayStream stR zeroCounters).1
     (by decide) rfl,
   playing_flag_invariant.2.2 failStartEnv 0 stR zeroCounters
     (.BackendSpecific (toString (-1 : Int))) rfl⟩

/-! ## Structural facts about draining -/

theorem process_commands_events_control (env : DevEnv) (cmds : List Command)
    (st : StreamInner) (k : Counters) :
    (process_commands env cmds st k).events.all isControlEvent = true := by
  induction cmds generalizing st k with
  | nil => rfl
  | cons c rest ih =>
    cases c with
    | PlayStream =>
      cases hp : st.playing with
      | true =>
        simpa [process_commands, stepCommand, hp] using ih st k
      | false =>
        cases hs : stream_error_from_hresult (env.startHr k.starts) with
        | error e =>
          simp [process_commands, stepCommand, hp, hs, isControlEvent]
        | ok u =>
          cases u
          simpa [process_commands, stepCommand, hp, hs, isControlEvent,
            List.all_append]
            using ih { st with playing := true }
              { k with starts := k.starts + 1 }
    | PauseStream =>
      cases hp : st.playing with
      | false =>
        simpa [process_commands, stepCommand, hp] using ih st k
      | true =>
        cases hs : stream_error_from_hresult (env.stopHr k.stops) with
        | error e =>
          simp [process_commands, stepCommand, hp, hs, isControlEvent]
        | ok u =>
          cases u
          simpa [process_commands, stepCommand, hp, hs, isControlEvent,
            List.all_append]
            using ih { st with playing := false }
              { k with stops := k.stops + 1 }
    | Terminate =>
      simp [process_commands, stepCommand]

theorem process_commands_only_start_stop (env : DevEnv)
    (cmds : List Command) (st : StreamInner) (k : Counters) :
    (process_commands env cmds st k).counters.paddings = k.paddings ∧
    (process_commands env cmds st k).counters.renderGets = k.renderGets ∧
    (process_commands env cmds st k).counters.renderReleases =
      k.renderReleases ∧
    (process_commands env cmds st k).counters.capPackets = k.capPackets ∧
    (process_commands env cmds st k).counters.capGets = k.capGets ∧
    (process_commands env cmds st k).counters.capReleases = k.capReleases ∧
    (process_commands env cmds st k).counters.waits = k.waits ∧
    (process_commands env cmds st k).counters.drains = k.drains := by
  induction cmds generalizing st k with
  | nil =>
    simp [process_commands]
  | cons c rest ih =>
    cases c with
    | PlayStream =>
      cases hp : st.playing with
      | true =>
        simpa [process_commands, stepCommand, hp] using ih st k
      | false =>
        cases hs : stream_error_from_hresult (env.startHr k.starts) with
        | error e =>
          simp [process_commands, stepCommand, hp, hs]
        | ok u =>
          cases u
          simpa [process_commands, stepCommand, hp, hs]
            using ih { st with playing := true }
              { k with starts := k.starts + 1 }
    | PauseStream =>
      cases hp : st.playing with
      | false =>
        simpa [process_commands, stepCommand, hp] using ih st k
      | true =>
        cases hs : stream_error_from_hresult (env.stopHr k.stops) with
        | error e =>
          simp [process_commands, stepCommand, hp, hs]
        | ok u =>
          cases u
          simpa [process_commands, stepCommand, hp, hs]
            using ih { st with playing := false }
              { k with stops := k.stops + 1 }
    | Terminate =>
      simp [process_commands, stepCommand]

/-! ## C6: every iteration drains fully before waiting; Terminate exits -/

/-- C6: each run-loop iteration begins by draining the command channel — the
iteration's trace extends the drain's trace — and when the drain reports
that a Terminate command was seen (`Ok(false)`) the loop exits on the
success path with exactly the drain's events: no wait is performed, no
device-buffer call is made (the drain emits only start/stop control
events), and no error or data callback occurs. -/
theorem run_inner_drains_before_wait (env : DevEnv) (fuel : Nat)
    (st : StreamInner) (k : Counters) :
    ((process_commands env (env.cmds k.drains) st
        { k with drains := k.drains + 1 }).events <+:
      (run_inner env (fuel + 1) st k).events) ∧
    ((process_commands env (env.cmds k.drains) st
        { k with drains := k.drains + 1 }).result = .ok false →
      run_inner env (fuel + 1) st k =
        { events := (process_commands env (env.cmds k.drains) st
            { k with drains := k.drains + 1 }).events
          stream := (process_commands env (env.cmds k.drains) st
            { k with drains := k.drains + 1 }).stream
          counters := (process_commands env (env.cmds k.drains) st
            { k with drains := k.drains + 1 }).counters
          exit := .finished } ∧
      (process_commands env (env.cmds k.drains) st
        { k with drains := k.drains + 1 }).counters.waits = k.waits ∧
      (process_commands env (env.cmds k.drains) st
        { k with drains := k.drains + 1 }).events.all isControlEvent =
        true) := by
  constructor
  · set d := process_commands env (env.cmds k.drains) st
      { k with drains := k.drains + 1 } with hd
    rcases hres : d.result with e | b
    · simp only [run_inner, ← hd, hres]
      exact List.prefix_append _ _
    · cases b with
      | false =>
        simp only [run_inner, ← hd, hres]
        exact List.prefix_rfl
      | true =>
        by_cases hw : env.waitOk d.counters.waits
        · by_cases hidx : env.waitIdx d.counters.waits = 0
          · simp only [run_inner, ← hd, hres, hw, hidx, Bool.not_true,
              Bool.not_eq_true, Bool.not_false, Bool.false_eq_true, if_false,
              if_true, reduceIte]
            exact List.prefix_append _ _
          · cases hflow : d.stream.client_flow with
            | Capture =>
              simp only [run_inner, ← hd, hres, hw, hidx, hflow,
                Bool.not_true, Bool.not_eq_true, Bool.not_false,
                Bool.false_eq_true, if_false, if_true, reduceIte]
              rcases hc : (captureLoop env d.stream fuel
                  { d.counters with waits := d.counters.waits + 1 }).outcome
                with _ | _ | _ <;>
                simp only [hc, List.append_assoc] <;>
                exact List.prefix_append _ _
            | Render =>
              simp only [run_inner, ← hd, hres, hw, hidx, hflow,
                Bool.not_true, Bool.not_eq_true, Bool.not_false,
                Bool.false_eq_true, if_false, if_true, reduceIte]
              rcases hr2 : (renderDispatch env d.stream
                  { d.counters with waits := d.counters.waits + 1 }).outcome
                with _ | _ <;>
                simp only [hr2, List.append_assoc] <;>
                exact List.prefix_append _ _
        · simp only [run_inner, ← hd, hres, hw, Bool.not_true,
            Bool.not_eq_true, Bool.not_false, Bool.false_eq_true, if_false,
            if_true, reduceIte]
          exact List.prefix_append _ _
  · intro hres
    refine ⟨?_, (process_commands_only_start_stop env (env.cmds k.drains) st
        { k with drains := k.drains + 1 }).2.2.2.2.2.2.1,
      process_commands_events_control env (env.cmds k.drains) st
        { k with drains := k.drains + 1 }⟩
    set d := process_commands env (env.cmds k.drains) st
      { k with drains := k.drains + 1 } with hd
    simp only [run_inner, ← hd, hres]

/-- Witness for C6 on a concrete environment whose first drain holds
Play,Terminate: the loop exits finished with exactly the drain's single
start-call event, without waiting. -/
theorem run_inner_drains_before_wait_witness :
    ((process_commands playTermEnv (playTermEnv.cmds zeroCounters.drains)
        stR { zeroCounters with drains := 1 }).events <+:
      (run_inner playTermEnv 1 stR zeroCounters).events) ∧
    (run_inner playTermEnv 1 stR zeroCounters =
      { events := (process_commands playTermEnv
          (playTermEnv.cmds zeroCounters.drains) stR
          { zeroCounters with drains := 1 }).events
        stream := (process_commands playTermEnv
          (playTermEnv.cmds zeroCounters.drains) stR
          { zeroCounters with drains := 1 }).stream
        counters := (process_commands playTermEnv
          (playTermEnv.cmds zeroCounters.drains) stR
          { zeroCounters with drains := 1 }).counters
        exit := .finished } ∧
      (process_commands playTermEnv (playTermEnv.cmds zeroCounters.drains)
        stR { zeroCounters with drains := 1 }).counters.waits =
        zeroCounters.waits ∧
      (process_commands playTermEnv (playTermEnv.cmds zeroCounters.drains)
        stR { zeroCounters with drains := 1 }).events.all isControlEvent =
        true) :=
  ⟨(run_inner_drains_before_wait playTermEnv 0 stR zeroCounters).1,
   (run_inner_drains_before_wait playTermEnv 0 stR zeroCounters).2 rfl⟩

/-! ## Error-delivery policy: helper lemmas -/

theorem errorFree_append (a b : List Event) :
    errorFree (a ++ b) = (errorFree a && errorFree b) := by
  simp [errorFree, List.all_append]

theorem errorFree_of_control (tr : List Event)
    (h : tr.all isControlEvent = true) : errorFree tr = true := by
  induction tr with
  | nil => rfl
  | cons ev rest ih =>
    rw [List.all_cons, Bool.and_eq_true] at h
    cases ev <;> simp_all [isControlEvent, isErrorEvent, errorFree]

theorem renderDispatch_error_shape (env : DevEnv) (st : StreamInner)
    (k : Counters) :
    ((renderDispatch env st k).outcome = .errored →
      ∃ pre e, (renderDispatch env st k).events =
        pre ++ [Event.errorCallback e] ∧ errorFree pre = true) ∧
    ((renderDispatch env st k).outcome ≠ .errored →
      errorFree (renderDispatch env st k).events = true) := by
  rcases hg : get_available_frames st (env.paddingHr k.paddings)
      (env.paddingVal k.paddings) with e | n
  · constructor
    · intro h
      exact ⟨[], e, by simp [renderDispatch, hg], rfl⟩
    · intro h
      exact absurd (by simp [renderDispatch, hg]) h
  · cases n with
    | zero =>
      constructor
      · intro h
        exact absurd h (by simp [renderDispatch, hg])
      · intro h
        simp [renderDispatch, hg, errorFree]
    | succ n =>
      rcases hG : stream_error_from_hresult (env.renderGetBufHr k.renderGets)
        with e | u
      · constructor
        · intro h
          exact ⟨[Event.getBuffer (n + 1)], e,
            by simp [renderDispatch, hg, hG], rfl⟩
        · intro h
          exact absurd (by simp [renderDispatch, hg, hG]) h
      · cases u
        rcases hR : stream_error_from_hresult
            (env.renderReleaseHr k.renderReleases) with e | u
        · constructor
          · intro h
            refine ⟨[Event.getBuffer (n + 1),
              Event.dataCallback .Output st.sample_format
                ((n + 1) * st.bytes_per_frame /
                  st.sample_format.sample_size),
              Event.releaseBuffer (n + 1)], e, ?_, rfl⟩
            simp [renderDispatch, hg, hG, hR]
          · intro h
            exact absurd (by simp [renderDispatch, hg, hG, hR]) h
        · cases u
          constructor
          · intro h
            exact absurd h (by simp [renderDispatch, hg, hG, hR])
          · intro h
            simp [renderDispatch, hg, hG, hR, errorFree, isErrorEvent]

theorem captureLoop_error_shape (env : DevEnv) (st : StreamInner)
    (fuel : Nat) (k : Counters) :
    ((captureLoop env st fuel k).outcome = .errored →
      ∃ pre e, (captureLoop env st fuel k).events =
        pre ++ [Event.errorCallback e] ∧ errorFree pre = true) ∧
    ((captureLoop env st fuel k).outcome ≠ .errored →
      errorFree (captureLoop env st fuel k).events = true) := by
  induction fuel generalizing k with
  | zero =>
    constructor
    · intro h
      exact absurd h (by simp [captureLoop])
    · intro h
      rfl
  | succ fuel ih =>
    rcases hP : stream_error_from_hresult (env.capPacketHr k.capPackets)
      with e | u
    · constructor
      · intro h
        exact ⟨[], e, by simp [captureLoop, hP], rfl⟩
      · intro h
        exact absurd (by simp [captureLoop, hP]) h
    · cases u
      by_cases hF : env.capPacketFrames k.capPackets = 0
      · constructor
        · intro h
          exact absurd h (by simp [captureLoop, hP, hF])
        · intro h
          simp [captureLoop, hP, hF, errorFree]
      · by_cases hE : env.capGetBufHr k.capGets = AUDCLNT_S_BUFFER_EMPTY
        · have hstep : captureLoop env st (fuel + 1) k =
              captureLoop env st fuel
                { k with capPackets := k.capPackets + 1
                         capGets := k.capGets + 1 } := by
            simp [captureLoop, hP, hF, hE]
          rw [hstep]
          exact ih _
        · rcases hG : stream_error_from_hresult (env.capGetBufHr k.capGets)
            with e | u
          · constructor
            · intro h
              exact ⟨[], e, by simp [captureLoop, hP, hF, hE, hG], rfl⟩
            · intro h
              exact absurd (by simp [captureLoop, hP, hF, hE, hG]) h
          · cases u
            rcases hR : stream_error_from_hresult
                (env.capReleaseHr k.capReleases) with e | u
            · constructor
              · intro h
                refine ⟨[Event.getBuffer (env.capGetBufFrames k.capGets),
                  Event.dataCallback .Input st.sample_format
                    (env.capGetBufFrames k.capGets * st.bytes_per_frame /
                      st.sample_format.sample_size),
                  Event.releaseBuffer (env.capGetBufFrames k.capGets)], e,
                  ?_, rfl⟩
                simp [captureLoop, hP, hF, hE, hG, hR]
              · intro h
                exact absurd (by simp [captureLoop, hP, hF, hE, hG, hR]) h
            · cases u
              have hstep : captureLoop env st (fuel + 1) k =
                  { events := [Event.getBuffer (env.capGetBufFrames k.capGets),
                      Event.dataCallback .Input st.sample_format
                        (env.capGetBufFrames k.capGets * st.bytes_per_frame /
                          st.sample_format.sample_size),
                      Event.releaseBuffer
                        (env.capGetBufFrames k.capGets)] ++
                      (captureLoop env st fuel
                        { k with capPackets := k.capPackets + 1
                                 capGets := k.capGets + 1
                                 capReleases := k.capReleases + 1 }).events
                    counters := (captureLoop env st fuel
                      { k with capPackets := k.capPackets + 1
                               capGets := k.capGets + 1
                               capReleases := k.capReleases + 1 }).counters
                    outcome := (captureLoop env st fuel
                      { k with capPackets := k.capPackets + 1
                               capGets := k.capGets + 1
                               capReleases := k.capReleases + 1 }).outcome
                  } := by
                simp [captureLoop, hP, hF, hE, hG, hR]
              rw [hstep]
              obtain ⟨ih1, ih2⟩ := ih { k with capPackets := k.capPackets + 1, capGets := k.capGets + 1, capReleases := k.capReleases + 1 }
              constructor
              · intro h
                obtain ⟨pre, e, heq, hfree⟩ := ih1 h
                refine ⟨[Event.getBuffer (env.capGetBufFrames k.capGets),
                  Event.dataCallback .Input st.sample_format
                    (env.capGetBufFrames k.capGets * st.bytes_per_frame /
                      st.sample_format.sample_size),
                  Event.releaseBuffer (env.capGetBufFrames k.capGets)] ++ pre,
                  e, ?_, ?_⟩
                · rw [heq, List.append_assoc]
                · rw [errorFree_append, hfree]
                  rfl
              · intro h
                have h2 := ih2 h
                rw [errorFree_append, h2]
                rfl

/-! ## C5: errors are delivered exactly once and terminate the loop -/

/-- C5: over any bounded run of `run_inner`, the run ends with the errored
exit exactly when an error callback was invoked; in that case the error
callback is the very last event — so it fires exactly once per engine
lifetime and no data callback (nor any other event) follows it — and a run
that did not error never invokes the error callback at all. -/
theorem run_inner_error_policy (env : DevEnv) (fuel : Nat) (st : StreamInner)
    (k : Counters) :
    ((run_inner env fuel st k).exit = .errored →
      ∃ pre e, (run_inner env fuel st k).events =
        pre ++ [Event.errorCallback e] ∧ errorFree pre = true) ∧
    ((run_inner env fuel st k).exit ≠ .errored →
      errorFree (run_inner env fuel st k).events = true) := by
  induction fuel generalizing st k with
  | zero =>
    constructor
    · intro h
      exact absurd h (by simp [run_inner])
    · intro h
      rfl
  | succ fuel ih =>
    set d := process_commands env (env.cmds k.drains) st
      { k with drains := k.drains + 1 } with hd
    have hdfree : errorFree d.events = true :=
      errorFree_of_control _ (process_commands_events_control env
        (env.cmds k.drains) st { k with drains := k.drains + 1 })
    rcases hres : d.result with e | b
    · have hstep : run_inner env (fuel + 1) st k =
          { events := d.events ++ [Event.errorCallback e], stream := d.stream
            counters := d.counters, exit := .errored } := by
        simp only [run_inner, ← hd, hres]
      rw [hstep]
      constructor
      · intro h
        exact ⟨d.events, e, rfl, hdfree⟩
      · intro h
        exact absurd rfl h
    · cases b with
      | false =>
        have hstep : run_inner env (fuel + 1) st k =
            { events := d.events, stream := d.stream, counters := d.counters
              exit := .finished } := by
          simp only [run_inner, ← hd, hres]
        rw [hstep]
        constructor
        · intro h
          simp at h
        · intro h
          exact hdfree
      | true =>
        by_cases hw : env.waitOk d.counters.waits
        · by_cases hidx : env.waitIdx d.counters.waits = 0
          · have hstep : run_inner env (fuel + 1) st k =
                { events := d.events ++ (run_inner env fuel d.stream
                    { d.counters with waits := d.counters.waits + 1 }).events
                  stream := (run_inner env fuel d.stream
                    { d.counters with waits := d.counters.waits + 1 }).stream
                  counters := (run_inner env fuel d.stream
                    { d.counters with
                      waits := d.counters.waits + 1 }).counters
                  exit := (run_inner env fuel d.stream
                    { d.counters with
                      waits := d.counters.waits + 1 }).exit } := by
              simp only [run_inner, ← hd, hres, hw, hidx, Bool.not_true,
                Bool.not_eq_true, Bool.not_false, Bool.false_eq_true,
                if_false, if_true, reduceIte]
            rw [hstep]
            obtain ⟨ih1, ih2⟩ := ih d.stream
              { d.counters with waits := d.counters.waits + 1 }
            constructor
            · intro h
              obtain ⟨pre, e, heq, hfree⟩ := ih1 h
              refine ⟨d.events ++ pre, e, ?_, ?_⟩
              · rw [heq, ← List.append_assoc]
              · rw [errorFree_append, hdfree, hfree]
                rfl
            · intro h
              rw [errorFree_append, hdfree, ih2 h]
              rfl
          · cases hflow : d.stream.client_flow with
            | Capture =>
              rcases hc : (captureLoop env d.stream fuel
                  { d.counters with waits := d.counters.waits + 1 }).outcome
                with _ | _ | _
              · have hstep : run_inner env (fuel + 1) st k =
                    { events := d.events ++ (captureLoop env d.stream fuel
                        { d.counters with
                          waits := d.counters.waits + 1 }).events ++
                        (run_inner env fuel d.stream (captureLoop env
                          d.stream fuel { d.counters with
                            waits := d.counters.waits + 1 }).counters).events
                      stream := (run_inner env fuel d.stream (captureLoop env
                        d.stream fuel { d.counters with
                          waits := d.counters.waits + 1 }).counters).stream
                      counters := (run_inner env fuel d.stream (captureLoop
                        env d.stream fuel { d.counters with
                          waits := d.counters.waits + 1 }).counters).counters
                      exit := (run_inner env fuel d.stream (captureLoop env
                        d.stream fuel { d.counters with
                          waits := d.counters.waits + 1 }).counters).exit }
                    := by
                  simp only [run_inner, ← hd, hres, hw, hidx, hflow, hc,
                    Bool.not_true, Bool.not_eq_true, Bool.not_false,
                    Bool.false_eq_true, if_false, if_true, reduceIte]
                rw [hstep]
                have hcfree : errorFree (captureLoop env d.stream fuel
                    { d.counters with
                      waits := d.counters.waits + 1 }).events = true :=
                  (captureLoop_error_shape env d.stream fuel _).2
                    (by rw [hc]; simp)
                obtain ⟨ih1, ih2⟩ := ih d.stream (captureLoop env d.stream
                  fuel { d.counters with waits := d.counters.waits + 1
                  }).counters
                constructor
                · intro h
                  obtain ⟨pre, e, heq, hfree⟩ := ih1 h
                  refine ⟨(d.events ++ (captureLoop env d.stream fuel
                    { d.counters with
                      waits := d.counters.waits + 1 }).events) ++ pre, e,
                    ?_, ?_⟩
                  · rw [heq, ← List.append_assoc]
                  · rw [errorFree_append, errorFree_append, hdfree, hcfree,
                      hfree]
                    rfl
                · intro h
                  rw [errorFree_append, errorFree_append, hdfree, hcfree,
                    ih2 h]
                  rfl
              · have hstep : run_inner env (fuel + 1) st k =
                    { events := d.events ++ (captureLoop env d.stream fuel
                        { d.counters with
                          waits := d.counters.waits + 1 }).events
                      stream := d.stream
                      counters := (captureLoop env d.stream fuel
                        { d.counters with
                          waits := d.counters.waits + 1 }).counters
                      exit := .errored } := by
                  simp only [run_inner, ← hd, hres, hw, hidx, hflow, hc,
                    Bool.not_true, Bool.not_eq_true, Bool.not_false,
                    Bool.false_eq_true, if_false, if_true, reduceIte]
                rw [hstep]
                obtain ⟨pre, e, heq, hfree⟩ :=
                  (captureLoop_error_shape env d.stream fuel _).1 hc
                constructor
                · intro h
                  refine ⟨d.events ++ pre, e, ?_, ?_⟩
                  · rw [heq, ← List.append_assoc]
                  · rw [errorFree_append, hdfree, hfree]
                    rfl
                · intro h
                  exact absurd rfl h
              · have hstep : run_inner env (fuel + 1) st k =
                    { events := d.events ++ (captureLoop env d.stream fuel
                        { d.counters with
                          waits := d.counters.waits + 1 }).events
                      stream := d.stream
                      counters := (captureLoop env d.stream fuel
                        { d.counters with
                          waits := d.counters.waits + 1 }).counters
                      exit := .fuelOut } := by
                  simp only [run_inner, ← hd, hres, hw, hidx, hflow, hc,
                    Bool.not_true, Bool.not_eq_true, Bool.not_false,
                    Bool.false_eq_true, if_false, if_true, reduceIte]
                rw [hstep]
                have hcfree : errorFree (captureLoop env d.stream fuel
                    { d.counters with
                      waits := d.counters.waits + 1 }).events = true :=
                  (captureLoop_error_shape env d.stream fuel _).2
                    (by rw [hc]; simp)
                constructor
                · intro h
                  simp at h
                · intro h
                  rw [errorFree_append, hdfree, hcfree]
                  rfl
            | Render =>
              rcases hr2 : (renderDispatch env d.stream
                  { d.counters with waits := d.counters.waits + 1 }).outcome
                with _ | _
              · have hstep : run_inner env (fuel + 1) st k =
                    { events := d.events ++ (renderDispatch env d.stream
                        { d.counters with
                          waits := d.counters.waits + 1 }).events ++
                        (run_inner env fuel d.stream (renderDispatch env
                          d.stream { d.counters with
                            waits := d.counters.waits + 1 }).counters).events
                      stream := (run_inner env fuel d.stream (renderDispatch
                        env d.stream { d.counters with
                          waits := d.counters.waits + 1 }).counters).stream
                      counters := (run_inner env fuel d.stream
                        (renderDispatch env d.stream { d.counters with
                          waits := d.counters.waits + 1 }).counters).counters
                      exit := (run_inner env fuel d.stream (renderDispatch
                        env d.stream { d.counters with
                          waits := d.counters.waits + 1 }).counters).exit }
                    := by
                  simp only [run_inner, ← hd, hres, hw, hidx, hflow, hr2,
                    Bool.not_true, Bool.not_eq_true, Bool.not_false,
                    Bool.false_eq_true, if_false, if_true, reduceIte]
                rw [hstep]
                have hrfree : errorFree (renderDispatch env d.stream
                    { d.counters with
                      waits := d.counters.waits + 1 }).events = true :=
                  (renderDispatch_error_shape env d.stream _).2
                    (by rw [hr2]; simp)
                obtain ⟨ih1, ih2⟩ := ih d.stream (renderDispatch env d.stream
                  { d.counters with waits := d.counters.waits + 1 }).counters
                constructor
                · intro h
                  obtain ⟨pre, e, heq, hfree⟩ := ih1 h
                  refine ⟨(d.events ++ (renderDispatch env d.stream
                    { d.counters with
                      waits := d.counters.waits + 1 }).events) ++ pre, e,
                    ?_, ?_⟩
                  · rw [heq, ← List.append_assoc]
                  · rw [errorFree_append, errorFree_append, hdfree, hrfree,
                      hfree]
                    rfl
                · intro h
                  rw [errorFree_append, errorFree_append, hdfree, hrfree,
                    ih2 h]
                  rfl
              · have hstep : run_inner env (fuel + 1) st k =
                    { events := d.events ++ (renderDispatch env d.stream
                        { d.counters with
                          waits := d.counters.waits + 1 }).events
                      stream := d.stream
                      counters := (renderDispatch env d.stream
                        { d.counters with
                          waits := d.counters.waits + 1 }).counters
                      exit := .errored } := by
                  simp only [run_inner, ← hd, hres, hw, hidx, hflow, hr2,
                    Bool.not_true, Bool.not_eq_true, Bool.not_false,
                    Bool.false_eq_true, if_false, if_true, reduceIte]
                rw [hstep]
                obtain ⟨pre, e, heq, hfree⟩ :=
                  (renderDispatch_error_shape env d.stream _).1 hr2
                constructor
                · intro h
                  refine ⟨d.events ++ pre, e, ?_, ?_⟩
                  · rw [heq, ← List.append_assoc]
                  · rw [errorFree_append, hdfree, hfree]
                    rfl
                · intro h
                  exact absurd rfl h
        · have hstep : run_inner env (fuel + 1) st k =
              { events := d.events ++ [Event.errorCallback (.BackendSpecific
                  ("`WaitForMultipleObjectsEx failed: " ++
                    toString (env.waitErr d.counters.waits)))]
                stream := d.stream
                counters := { d.counters with
                  waits := d.counters.waits + 1 }
                exit := .errored } := by
            simp only [run_inner, ← hd, hres, hw, Bool.not_true,
              Bool.not_eq_true, Bool.not_false, Bool.false_eq_true, if_false,
              if_true, reduceIte]
          rw [hstep]
          constructor
          · intro h
            exact ⟨d.events, _, rfl, hdfree⟩
          · intro h
            exact absurd rfl h

/-- Witness for C5: the failed-start environment errors with the error
callback as the final event of the run; the benign environment's run has no
error callback at all. -/
theorem run_inner_error_policy_witness :
    (∃ pre e, (run_inner failStartEnv 1 stR zeroCounters).events =
      pre ++ [Event.errorCallback e] ∧ errorFree pre = true) ∧
    errorFree (run_inner okEnv 1 stR zeroCounters).events = true :=
  ⟨(run_inner_error_policy failStartEnv 1 stR zeroCounters).1 rfl,
   (run_inner_error_policy okEnv 1 stR zeroCounters).2 (by decide)⟩

end Wasapi
